import Mathlib

/-!
Shallow embedding of the Gravity Runner simulation core (`ui/main_ui.py`).

Python floats are modelled as exact rationals (ℚ).  `pygame.Rect` stores
integer coordinates obtained by truncating floats toward zero, and
`colliderect` is the strict axis-aligned overlap test; both are modelled
below.  Randomness (`random.choice`, `random.randint`) and the wall clock
(`pygame.time.get_ticks`) enter `GameManager.update` as explicit inputs.
Rendering, the event loop and the background scroller are presentation-layer
and not part of the simulation state.
-/

namespace GravityRunner

/-- `SCREEN_WIDTH = 800` from `ui/main_ui.py`. -/
def SCREEN_WIDTH : ℚ := 800

/-- `GROUND_HEIGHT = 350`. -/
def GROUND_HEIGHT : ℚ := 350

/-- `AIR_HEIGHT = 150`. -/
def AIR_HEIGHT : ℚ := 150

/-- `PLAYER_WIDTH = 30`. -/
def PLAYER_WIDTH : ℚ := 30

/-- `PLAYER_HEIGHT = 80`. -/
def PLAYER_HEIGHT : ℚ := 80

/-- `OBSTACLE_WIDTH = 30`. -/
def OBSTACLE_WIDTH : ℚ := 30

/-- `OBSTACLE_HEIGHT = 80`. -/
def OBSTACLE_HEIGHT : ℚ := 80

/-- `GAME_SPEED_INITIAL = 5`. -/
def GAME_SPEED_INITIAL : ℚ := 5

/-- `GAME_SPEED_INCREMENT = 0.004`. -/
def GAME_SPEED_INCREMENT : ℚ := 4 / 1000

/-- `OBSTACLE_FREQUENCY_INITIAL = 1000` (milliseconds). -/
def OBSTACLE_FREQUENCY_INITIAL : ℚ := 1000

/-- `OBSTACLE_FREQUENCY_MIN = 500`. -/
def OBSTACLE_FREQUENCY_MIN : ℚ := 500

/-- `OBSTACLE_DISTANCE_MIN = 300`. -/
def OBSTACLE_DISTANCE_MIN : ℚ := 300

/-- `OBSTACLE_DISTANCE_MAX = 600`. -/
def OBSTACLE_DISTANCE_MAX : ℚ := 600

/-- `SCORE_INCREMENT = 0.05`. -/
def SCORE_INCREMENT : ℚ := 5 / 100

/-- `TRANSITION_SPEED = 15`. -/
def TRANSITION_SPEED : ℚ := 15

/-- Truncation toward zero, how `pygame.Rect` converts float coordinates
to C integers. -/
def ratTrunc (q : ℚ) : ℤ := if q < 0 then -⌊-q⌋ else ⌊q⌋

/-- An integer-coordinate rectangle, the model of `pygame.Rect`. -/
structure Rect where
  x : ℤ
  y : ℤ
  w : ℤ
  h : ℤ
deriving DecidableEq, Repr

/-- `pygame.Rect.colliderect`: strict axis-aligned bounding-box overlap
(touching edges do not collide). -/
def Rect.colliderect (a b : Rect) : Bool :=
  decide (a.x < b.x + b.w) && decide (a.y < b.y + b.h) &&
  decide (b.x < a.x + a.w) && decide (b.y < a.y + a.h)

/-- State of the `Player` class: fixed box dimensions, position, the
gravity flag set from the control signal, and the interpolation target. -/
structure Player where
  width : ℚ
  height : ℚ
  x : ℚ
  y : ℚ
  in_air : Bool
  target_y : ℚ
deriving DecidableEq, Repr

/-- `Player.__init__`: starts at `x = 100`, on the ground baseline. -/
def Player.init : Player :=
  { width := PLAYER_WIDTH
    height := PLAYER_HEIGHT
    x := 100
    y := GROUND_HEIGHT - PLAYER_HEIGHT
    in_air := false
    target_y := GROUND_HEIGHT - PLAYER_HEIGHT }

/-- `Player.update`: recompute `target_y` from `in_air`, then move `y`
toward `target_y` by at most `TRANSITION_SPEED`, clamped at the target. -/
def Player.update (p : Player) : Player :=
  let t : ℚ := if p.in_air then AIR_HEIGHT else GROUND_HEIGHT - p.height
  let y' : ℚ :=
    if p.y < t then min t (p.y + TRANSITION_SPEED)
    else if p.y > t then max t (p.y - TRANSITION_SPEED)
    else p.y
  { p with target_y := t, y := y' }

/-- `Player.get_rect`. -/
def Player.get_rect (p : Player) : Rect :=
  ⟨ratTrunc p.x, ratTrunc p.y, ratTrunc p.width, ratTrunc p.height⟩

/-- State of the `Obstacle` class.  `speed` is the game speed captured at
construction time and stored in the obstacle. -/
structure Obstacle where
  width : ℚ
  height : ℚ
  x : ℚ
  is_air_obstacle : Bool
  y : ℚ
  speed : ℚ
deriving DecidableEq, Repr

/-- `Obstacle.__init__(speed, is_air_obstacle)`: spawns at the right edge
of the screen, vertical placement fixed by the kind flag, and records the
construction-time speed. -/
def Obstacle.init (speed : ℚ) (is_air_obstacle : Bool) : Obstacle :=
  { width := OBSTACLE_WIDTH
    height := OBSTACLE_HEIGHT
    x := SCREEN_WIDTH
    is_air_obstacle := is_air_obstacle
    y := if is_air_obstacle then AIR_HEIGHT else GROUND_HEIGHT - OBSTACLE_HEIGHT
    speed := speed }

/-- `Obstacle.update`: `self.x -= self.speed` (the stored speed). -/
def Obstacle.update (o : Obstacle) : Obstacle :=
  { o with x := o.x - o.speed }

/-- `Obstacle.get_rect`. -/
def Obstacle.get_rect (o : Obstacle) : Rect :=
  ⟨ratTrunc o.x, ratTrunc o.y, ratTrunc o.width, ratTrunc o.height⟩

/-- `Obstacle.is_off_screen`: `x + width < 0`. -/
def Obstacle.is_off_screen (o : Obstacle) : Bool :=
  decide (o.x + o.width < 0)

/-- State of the `GameState` class. -/
structure GameState where
  game_over : Bool
  has_started : Bool
  score : ℚ
  game_speed : ℚ
  obstacle_frequency : ℚ
  last_obstacle_time : ℚ
deriving DecidableEq, Repr

/-- `GameState.reset` / `GameState.__init__`: the initial values. -/
def GameState.reset : GameState :=
  { game_over := false
    has_started := false
    score := 0
    game_speed := GAME_SPEED_INITIAL
    obstacle_frequency := OBSTACLE_FREQUENCY_INITIAL
    last_obstacle_time := 0 }

/-- The simulation-relevant state of `GameManager`: the game state, the
player and the ordered obstacle collection (presentation fields omitted). -/
structure GameManager where
  state : GameState
  player : Player
  obstacles : List Obstacle
deriving DecidableEq, Repr

/-- The run's coarse lifecycle phase, derived from the two flags. -/
inductive Phase where
  | NOT_STARTED
  | RUNNING
  | GAME_OVER
deriving DecidableEq, Repr

/-- Phase mapping: `has_started = False` is NOT_STARTED, otherwise
`game_over` decides between GAME_OVER and RUNNING. -/
def GameManager.phase (g : GameManager) : Phase :=
  if g.state.has_started = false then Phase.NOT_STARTED
  else if g.state.game_over then Phase.GAME_OVER
  else Phase.RUNNING

/-- `GameManager.generate_obstacle`.  `rndAir` models
`random.choice([True, False])` and `rndDist` models
`random.randint(OBSTACLE_DISTANCE_MIN, OBSTACLE_DISTANCE_MAX)`.  A new
obstacle is built at the right edge with the current game speed; if
obstacles exist, its `x` is raised to `max(SCREEN_WIDTH, last.x + rndDist)`. -/
def GameManager.generate_obstacle (g : GameManager) (rndAir : Bool)
    (rndDist : ℚ) : GameManager :=
  let newObstacle := Obstacle.init g.state.game_speed rndAir
  match g.obstacles.getLast? with
  | none => { g with obstacles := g.obstacles ++ [newObstacle] }
  | some last =>
      { g with obstacles := g.obstacles ++
          [{ newObstacle with x := max SCREEN_WIDTH (last.x + rndDist) }] }

/-- The collision test of `GameManager.check_collisions`: does the
player's rect overlap some obstacle's rect? -/
def GameManager.anyCollision (g : GameManager) : Bool :=
  g.obstacles.any (fun o => (g.player.get_rect).colliderect o.get_rect)

/-- `GameManager.check_collisions`: sets `game_over` when the player's
rect overlaps any obstacle's rect. -/
def GameManager.check_collisions (g : GameManager) : GameManager :=
  if g.anyCollision then
    { g with state := { g.state with game_over := true } }
  else g

/-- `self.player.update()` in `GameManager.update`. -/
def GameManager.stepPlayer (g : GameManager) : GameManager :=
  { g with player := g.player.update }

/-- The obstacle loop of `GameManager.update`: every obstacle moves by its
own stored speed, then those now off-screen are removed (iterating over a
copy, so each obstacle is updated exactly once and removed iff off-screen
after its own move; list order is preserved). -/
def GameManager.movedObstacles (g : GameManager) : List Obstacle :=
  (g.obstacles.map Obstacle.update).filter (fun o => !o.is_off_screen)

/-- The obstacle move-and-prune step of `GameManager.update`. -/
def GameManager.stepObstacles (g : GameManager) : GameManager :=
  { g with obstacles := g.movedObstacles }

/-- The timed-spawn step of `GameManager.update`:
`if current_time - last_obstacle_time > obstacle_frequency` then generate
an obstacle and record the spawn time. -/
def GameManager.stepSpawn (g : GameManager) (now : ℚ) (rndAir : Bool)
    (rndDist : ℚ) : GameManager :=
  if g.state.obstacle_frequency < now - g.state.last_obstacle_time then
    let g' := g.generate_obstacle rndAir rndDist
    { g' with state := { g'.state with last_obstacle_time := now } }
  else g

/-- The difficulty bookkeeping at the end of `GameManager.update`:
`game_speed += GAME_SPEED_INCREMENT * (1 + score / 500)`,
`score += SCORE_INCREMENT`, and then
`obstacle_frequency = max(OBSTACLE_FREQUENCY_MIN,
OBSTACLE_FREQUENCY_INITIAL - score * 2)` with the incremented score. -/
def GameManager.stepDifficulty (g : GameManager) : GameManager :=
  let speed_multiplier : ℚ := 1 + g.state.score / 500
  let g5 := { g with state := { g.state with
    game_speed := g.state.game_speed + GAME_SPEED_INCREMENT * speed_multiplier } }
  let g6 := { g5 with state := { g5.state with
    score := g5.state.score + SCORE_INCREMENT } }
  { g6 with state := { g6.state with
    obstacle_frequency :=
      max OBSTACLE_FREQUENCY_MIN
        (OBSTACLE_FREQUENCY_INITIAL - g6.state.score * 2) } }

/-- One call of `GameManager.update`.  `now` models
`pygame.time.get_ticks()`; `rndAir`/`rndDist` feed a potential spawn.
Mirrors the source order: early return unless started and not over, then
player update, obstacle move + off-screen prune, collision check, timed
spawn, speed/score increments, and the obstacle-frequency adjustment. -/
def GameManager.update (g : GameManager) (now : ℚ) (rndAir : Bool)
    (rndDist : ℚ) : GameManager :=
  if g.state.has_started = false then g
  else if g.state.game_over then g
  else
    ((g.stepPlayer.stepObstacles.check_collisions).stepSpawn now rndAir
      rndDist).stepDifficulty

/-- `GameManager.reset_game`: reset the game state, a fresh player, and an
empty obstacle collection. -/
def GameManager.reset_game (g : GameManager) : GameManager :=
  { g with state := GameState.reset, player := Player.init, obstacles := [] }

/-- The reset signal as handled in `GameManager.handle_events` (SPACE
while game over or before the first start): `reset_game()` followed by
`has_started = True`. -/
def GameManager.resetSignal (g : GameManager) : GameManager :=
  let g' := g.reset_game
  { g' with state := { g'.state with has_started := true } }

/-- Per-tick external inputs to `GameManager.update`: the clock reading
and the two random draws. -/
structure TickInput where
  now : ℚ
  rndAir : Bool
  rndDist : ℚ
deriving DecidableEq, Repr

/-- Run a sequence of update ticks. -/
def GameManager.runTicks (g : GameManager) : List TickInput → GameManager
  | [] => g
  | i :: is => (g.update i.now i.rndAir i.rndDist).runTicks is

/-- Set the control signal (as `handle_events` does each frame) and run
`Player.update`, then iterate over a signal sequence. -/
def Player.run (p : Player) : List Bool → Player
  | [] => p
  | b :: bs => ({ p with in_air := b }).update.run bs

/-- The overlap test a running tick actually performs: after the player
interpolation step and the obstacle move-and-prune step, does the
player's rect overlap some remaining obstacle's rect? -/
def GameManager.tickCollision (g : GameManager) : Bool :=
  (g.stepPlayer.stepObstacles).anyCollision

/-- Reachability facts about score and spawn interval that every tick
preserves: the score is nonnegative and the spawn interval sits at or
above both its floor and the value the difficulty formula would assign. -/
def DifficultyInv (g : GameManager) : Prop :=
  0 ≤ g.state.score ∧
  OBSTACLE_FREQUENCY_MIN ≤ g.state.obstacle_frequency ∧
  max OBSTACLE_FREQUENCY_MIN
    (OBSTACLE_FREQUENCY_INITIAL - g.state.score * 2) ≤ g.state.obstacle_frequency

/-- A freshly started game: the state right after the start/reset signal. -/
def sampleStart : GameManager :=
  (GameManager.mk GameState.reset Player.init []).resetSignal

/-- A game-over state (used to exercise the freeze behaviour). -/
def sampleOver : GameManager :=
  { sampleStart with state := { sampleStart.state with game_over := true } }

/-- A running game with one ground obstacle still at the right edge. -/
def sampleOneObstacle : GameManager :=
  { sampleStart with obstacles := [Obstacle.init 5 false] }

/-- A running game with one air obstacle still at the right edge. -/
def sampleOneAir : GameManager :=
  { sampleStart with obstacles := [Obstacle.init 5 true] }

/-- A running game in which the global game speed has risen to 7 while a
ground obstacle spawned earlier (stored speed 5, now at `x = 300`)
coexists with one spawned later (stored speed 7, at `x = 700`). -/
def storedSpeedSample : GameManager :=
  { sampleStart with
    state := { sampleStart.state with game_speed := 7 }
    obstacles := [{ Obstacle.init 5 false with x := 300 },
                  { Obstacle.init 7 false with x := 700 }] }

/-- A running game with a ground obstacle at `x = 105`: after its move at
speed 5 it sits at `x = 100` and overlaps the player's box exactly. -/
def collideSample : GameManager :=
  { sampleStart with obstacles := [{ Obstacle.init 5 false with x := 105 }] }

/-- A running game whose air obstacle has reached `x = -25`, the position
an obstacle spawned at `x = 800` with stored speed 5 occupies after 165
moves (`800 - 5 * 165 = -25`); its next move lands exactly on `x = -30`. -/
def boundarySample : GameManager :=
  { sampleStart with obstacles := [{ Obstacle.init 5 true with x := -25 }] }

/-! ### Helper lemmas about the tick pipeline -/

theorem check_collisions_state_of (g : GameManager) :
    (g.check_collisions).state =
      { g.state with game_over := g.state.game_over || g.anyCollision } := by
  unfold GameManager.check_collisions
  cases h : g.anyCollision <;> simp [h]

theorem check_collisions_obstacles (g : GameManager) :
    (g.check_collisions).obstacles = g.obstacles := by
  unfold GameManager.check_collisions
  cases h : g.anyCollision <;> simp [h]

theorem check_collisions_player (g : GameManager) :
    (g.check_collisions).player = g.player := by
  unfold GameManager.check_collisions
  cases h : g.anyCollision <;> simp [h]

theorem generate_obstacle_state (g : GameManager) (b : Bool) (d : ℚ) :
    (g.generate_obstacle b d).state = g.state := by
  unfold GameManager.generate_obstacle
  cases h : g.obstacles.getLast? <;> simp [h]

theorem generate_obstacle_player (g : GameManager) (b : Bool) (d : ℚ) :
    (g.generate_obstacle b d).player = g.player := by
  unfold GameManager.generate_obstacle
  cases h : g.obstacles.getLast? <;> simp [h]

theorem generate_obstacle_obstacles (g : GameManager) (b : Bool) (d : ℚ) :
    ∃ o : Obstacle,
      (g.generate_obstacle b d).obstacles = g.obstacles ++ [o] ∧
        o.width = OBSTACLE_WIDTH ∧ SCREEN_WIDTH ≤ o.x := by
  unfold GameManager.generate_obstacle
  cases h : g.obstacles.getLast? with
  | none =>
      refine ⟨Obstacle.init g.state.game_speed b, by simp [h], rfl, ?_⟩
      simp [Obstacle.init]
  | some last =>
      refine ⟨{ Obstacle.init g.state.game_speed b with
        x := max SCREEN_WIDTH (last.x + d) }, by simp [h], rfl, le_max_left _ _⟩

theorem stepSpawn_score (g : GameManager) (now : ℚ) (b : Bool) (d : ℚ) :
    (g.stepSpawn now b d).state.score = g.state.score := by
  unfold GameManager.stepSpawn
  split
  · simp [generate_obstacle_state]
  · rfl

theorem stepSpawn_game_speed (g : GameManager) (now : ℚ) (b : Bool) (d : ℚ) :
    (g.stepSpawn now b d).state.game_speed = g.state.game_speed := by
  unfold GameManager.stepSpawn
  split
  · simp [generate_obstacle_state]
  · rfl

theorem stepSpawn_game_over (g : GameManager) (now : ℚ) (b : Bool) (d : ℚ) :
    (g.stepSpawn now b d).state.game_over = g.state.game_over := by
  unfold GameManager.stepSpawn
  split
  · simp [generate_obstacle_state]
  · rfl

theorem stepSpawn_has_started (g : GameManager) (now : ℚ) (b : Bool) (d : ℚ) :
    (g.stepSpawn now b d).state.has_started = g.state.has_started := by
  unfold GameManager.stepSpawn
  split
  · simp [generate_obstacle_state]
  · rfl

theorem stepSpawn_player (g : GameManager) (now : ℚ) (b : Bool) (d : ℚ) :
    (g.stepSpawn now b d).player = g.player := by
  unfold GameManager.stepSpawn
  split
  · simp [generate_obstacle_player]
  · rfl

theorem stepSpawn_obstacles (g : GameManager) (now : ℚ) (b : Bool) (d : ℚ) :
    (g.stepSpawn now b d).obstacles = g.obstacles ∨
      ∃ o : Obstacle, (g.stepSpawn now b d).obstacles = g.obstacles ++ [o] ∧
        o.width = OBSTACLE_WIDTH ∧ SCREEN_WIDTH ≤ o.x := by
  unfold GameManager.stepSpawn
  split
  · right
    obtain ⟨o, ho, hw, hx⟩ := generate_obstacle_obstacles g b d
    exact ⟨o, by simp [ho], hw, hx⟩
  · left; rfl

theorem stepDifficulty_state_fields (g : GameManager) :
    (g.stepDifficulty).state.score = g.state.score + SCORE_INCREMENT ∧
    (g.stepDifficulty).state.game_speed =
      g.state.game_speed + GAME_SPEED_INCREMENT * (1 + g.state.score / 500) ∧
    (g.stepDifficulty).state.obstacle_frequency =
      max OBSTACLE_FREQUENCY_MIN
        (OBSTACLE_FREQUENCY_INITIAL - (g.state.score + SCORE_INCREMENT) * 2) ∧
    (g.stepDifficulty).state.game_over = g.state.game_over ∧
    (g.stepDifficulty).state.has_started = g.state.has_started ∧
    (g.stepDifficulty).player = g.player ∧
    (g.stepDifficulty).obstacles = g.obstacles := by
  exact ⟨rfl, rfl, rfl, rfl, rfl, rfl, rfl⟩

theorem update_not_started (g : GameManager) (now : ℚ) (b : Bool) (d : ℚ)
    (h : g.state.has_started = false) : g.update now b d = g := by
  unfold GameManager.update
  simp [h]

theorem update_game_over_frozen (g : GameManager) (now : ℚ) (b : Bool) (d : ℚ)
    (h : g.state.game_over = true) : g.update now b d = g := by
  unfold GameManager.update
  cases h' : g.state.has_started <;> simp [h, h']

theorem update_running_eq (g : GameManager) (now : ℚ) (b : Bool) (d : ℚ)
    (h1 : g.state.has_started = true) (h2 : g.state.game_over = false) :
    g.update now b d =
      ((g.stepPlayer.stepObstacles.check_collisions).stepSpawn now b
        d).stepDifficulty := by
  unfold GameManager.update
  simp [h1, h2]

theorem update_running_state_fields (g : GameManager) (now : ℚ) (b : Bool)
    (d : ℚ) (h1 : g.state.has_started = true)
    (h2 : g.state.game_over = false) :
    (g.update now b d).state.score = g.state.score + SCORE_INCREMENT ∧
    (g.update now b d).state.game_speed =
      g.state.game_speed + GAME_SPEED_INCREMENT * (1 + g.state.score / 500) ∧
    (g.update now b d).state.obstacle_frequency =
      max OBSTACLE_FREQUENCY_MIN
        (OBSTACLE_FREQUENCY_INITIAL - (g.state.score + SCORE_INCREMENT) * 2) ∧
    (g.update now b d).state.game_over = g.tickCollision ∧
    (g.update now b d).state.has_started = true := by
  have hd := stepDifficulty_state_fields
    ((g.stepPlayer.stepObstacles.check_collisions).stepSpawn now b d)
  refine ⟨?_, ?_, ?_, ?_, ?_⟩
  · rw [update_running_eq g now b d h1 h2, hd.1, stepSpawn_score,
      check_collisions_state_of]
    rfl
  · rw [update_running_eq g now b d h1 h2, hd.2.1, stepSpawn_game_speed,
      check_collisions_state_of, stepSpawn_score, check_collisions_state_of]
    rfl
  · rw [update_running_eq g now b d h1 h2, hd.2.2.1, stepSpawn_score,
      check_collisions_state_of]
    rfl
  · rw [update_running_eq g now b d h1 h2, hd.2.2.2.1, stepSpawn_game_over,
      check_collisions_state_of]
    show (g.state.game_over || g.tickCollision) = g.tickCollision
    rw [h2]
    exact Bool.false_or _
  · rw [update_running_eq g now b d h1 h2, hd.2.2.2.2.1,
      stepSpawn_has_started, check_collisions_state_of]
    exact h1

theorem update_running_obstacles (g : GameManager) (now : ℚ) (b : Bool)
    (d : ℚ) (h1 : g.state.has_started = true)
    (h2 : g.state.game_over = false) :
    (g.update now b d).obstacles = g.movedObstacles ∨
      ∃ o : Obstacle, (g.update now b d).obstacles = g.movedObstacles ++ [o] ∧
        o.width = OBSTACLE_WIDTH ∧ SCREEN_WIDTH ≤ o.x := by
  rw [update_running_eq g now b d h1 h2]
  have hd := stepDifficulty_state_fields
    ((g.stepPlayer.stepObstacles.check_collisions).stepSpawn now b d)
  rw [hd.2.2.2.2.2.2]
  rcases stepSpawn_obstacles (g.stepPlayer.stepObstacles.check_collisions)
      now b d with h | ⟨o, ho, hw, hx⟩
  · left
    rw [h, check_collisions_obstacles]
    rfl
  · right
    refine ⟨o, ?_, hw, hx⟩
    rw [ho, check_collisions_obstacles]
    rfl

theorem mem_movedObstacles (g : GameManager) (o : Obstacle)
    (ho : o ∈ g.obstacles) (hon : o.update.is_off_screen = false) :
    o.update ∈ g.movedObstacles := by
  unfold GameManager.movedObstacles
  refine List.mem_filter.mpr ⟨List.mem_map.mpr ⟨o, ho, rfl⟩, ?_⟩
  simp [hon]

theorem mem_obstacles_after_tick (g : GameManager) (now : ℚ) (b : Bool)
    (d : ℚ) (o : Obstacle) (h1 : g.state.has_started = true)
    (h2 : g.state.game_over = false) (ho : o ∈ g.obstacles)
    (hon : o.update.is_off_screen = false) :
    o.update ∈ (g.update now b d).obstacles := by
  have hm := mem_movedObstacles g o ho hon
  rcases update_running_obstacles g now b d h1 h2 with h | ⟨o', h, _, _⟩
  · rw [h]; exact hm
  · rw [h]; exact List.mem_append_left _ hm

theorem player_update_bounds (p : Player) (hh : p.height = PLAYER_HEIGHT)
    (h1 : AIR_HEIGHT ≤ p.y) (h2 : p.y ≤ GROUND_HEIGHT - PLAYER_HEIGHT) :
    p.update.height = PLAYER_HEIGHT ∧ AIR_HEIGHT ≤ p.update.y ∧
      p.update.y ≤ GROUND_HEIGHT - PLAYER_HEIGHT := by
  have cA : AIR_HEIGHT = (150 : ℚ) := rfl
  have cG : GROUND_HEIGHT = (350 : ℚ) := rfl
  have cP : PLAYER_HEIGHT = (80 : ℚ) := rfl
  have cT : TRANSITION_SPEED = (15 : ℚ) := rfl
  refine ⟨hh, ?_, ?_⟩ <;>
    (unfold Player.update
     dsimp only
     split_ifs with hb1 hb2) <;>
    first
      | (rcases min_cases AIR_HEIGHT (p.y + TRANSITION_SPEED)
            with ⟨hm, hba⟩ | ⟨hm, hba⟩ <;> rw [hm] <;> linarith)
      | (rcases min_cases (GROUND_HEIGHT - p.height) (p.y + TRANSITION_SPEED)
            with ⟨hm, hba⟩ | ⟨hm, hba⟩ <;> rw [hm] <;> linarith)
      | (rcases max_cases AIR_HEIGHT (p.y - TRANSITION_SPEED)
            with ⟨hm, hba⟩ | ⟨hm, hba⟩ <;> rw [hm] <;> linarith)
      | (rcases max_cases (GROUND_HEIGHT - p.height) (p.y - TRANSITION_SPEED)
            with ⟨hm, hba⟩ | ⟨hm, hba⟩ <;> rw [hm] <;> linarith)
      | linarith

theorem player_run_bounds (l : List Bool) :
    ∀ p : Player, p.height = PLAYER_HEIGHT → AIR_HEIGHT ≤ p.y →
      p.y ≤ GROUND_HEIGHT - PLAYER_HEIGHT →
      (p.run l).height = PLAYER_HEIGHT ∧ AIR_HEIGHT ≤ (p.run l).y ∧
        (p.run l).y ≤ GROUND_HEIGHT - PLAYER_HEIGHT := by
  induction l with
  | nil => exact fun p hh h1 h2 => ⟨hh, h1, h2⟩
  | cons b bs ih =>
      intro p hh h1 h2
      have hstep := player_update_bounds { p with in_air := b } hh h1 h2
      exact ih _ hstep.1 hstep.2.1 hstep.2.2

/-! ### Claim theorems -/

/-- C10: from the initial player state, along every control-signal
sequence, the player's vertical position stays within the closed interval
between the air altitude and the ground baseline
`[AIR_HEIGHT, GROUND_HEIGHT - PLAYER_HEIGHT]`. -/
theorem player_y_in_lanes (l : List Bool) :
    AIR_HEIGHT ≤ (Player.init.run l).y ∧
      (Player.init.run l).y ≤ GROUND_HEIGHT - PLAYER_HEIGHT := by
  have h := player_run_bounds l Player.init rfl (by
    show AIR_HEIGHT ≤ GROUND_HEIGHT - PLAYER_HEIGHT
    rw [show AIR_HEIGHT = (150 : ℚ) from rfl,
      show GROUND_HEIGHT = (350 : ℚ) from rfl,
      show PLAYER_HEIGHT = (80 : ℚ) from rfl]
    norm_num) (le_refl _)
  exact ⟨h.2.1, h.2.2⟩

/-- C5: on any tick and for any boolean control signal, `Player.update`
moves `y` by at most `TRANSITION_SPEED`, and the new `y` lies between the
old `y` and the recomputed `target_y`, so it is never strictly beyond the
target in the direction of travel, however fast the signal toggles. -/
theorem player_step_bounded (p : Player) (b : Bool) :
    |({ p with in_air := b }).update.y - p.y| ≤ TRANSITION_SPEED ∧
    min p.y ({ p with in_air := b }).update.target_y ≤
      ({ p with in_air := b }).update.y ∧
    ({ p with in_air := b }).update.y ≤
      max p.y ({ p with in_air := b }).update.target_y := by
  have key : ∀ q : Player, |q.update.y - q.y| ≤ TRANSITION_SPEED ∧
      min q.y q.update.target_y ≤ q.update.y ∧
      q.update.y ≤ max q.y q.update.target_y := by
    intro q
    have cT : TRANSITION_SPEED = (15 : ℚ) := rfl
    unfold Player.update
    dsimp only
    set t : ℚ := if q.in_air = true then AIR_HEIGHT
      else GROUND_HEIGHT - q.height with ht
    split_ifs with hb1 hb2 <;>
      refine ⟨abs_le.mpr ⟨?_, ?_⟩, ?_, ?_⟩ <;>
      first
        | (rcases min_cases t (q.y + TRANSITION_SPEED)
              with ⟨hm, hba⟩ | ⟨hm, hba⟩ <;> rw [hm] <;>
            first
              | linarith
              | (rcases min_cases q.y t with ⟨hq, hqa⟩ | ⟨hq, hqa⟩ <;>
                  rw [hq] <;> linarith)
              | (rcases max_cases q.y t with ⟨hq, hqa⟩ | ⟨hq, hqa⟩ <;>
                  rw [hq] <;> linarith))
        | (rcases max_cases t (q.y - TRANSITION_SPEED)
              with ⟨hm, hba⟩ | ⟨hm, hba⟩ <;> rw [hm] <;>
            first
              | linarith
              | (rcases min_cases q.y t with ⟨hq, hqa⟩ | ⟨hq, hqa⟩ <;>
                  rw [hq] <;> linarith)
              | (rcases max_cases q.y t with ⟨hq, hqa⟩ | ⟨hq, hqa⟩ <;>
                  rw [hq] <;> linarith))
        | (rcases min_cases q.y t with ⟨hq, hqa⟩ | ⟨hq, hqa⟩ <;>
            rw [hq] <;> linarith)
        | (rcases max_cases q.y t with ⟨hq, hqa⟩ | ⟨hq, hqa⟩ <;>
            rw [hq] <;> linarith)
        | linarith
  exact key { p with in_air := b }

/-- C4: the reset signal (as handled on SPACE from game over or before the
first start: `reset_game()` then `has_started = True`) is idempotent and
total: applying it twice equals applying it once, and the post-reset state
has score 0, no obstacles, the player at the ground baseline, and phase
RUNNING — from any prior state whatsoever. -/
theorem reset_idempotent (g : GameManager) :
    g.resetSignal.resetSignal = g.resetSignal ∧
    (g.resetSignal).state.score = 0 ∧
    (g.resetSignal).obstacles = [] ∧
    (g.resetSignal).player.y = GROUND_HEIGHT - PLAYER_HEIGHT ∧
    (g.resetSignal).phase = Phase.RUNNING :=
  ⟨rfl, rfl, rfl, rfl, rfl⟩

/-- C1: whenever `generate_obstacle` fires with at least one obstacle
still in the collection, the freshly appended obstacle's `x` exceeds the
previous last obstacle's current `x` by at least `OBSTACLE_DISTANCE_MIN`,
for every drawn distance in `[OBSTACLE_DISTANCE_MIN, OBSTACLE_DISTANCE_MAX]`
and regardless of how far the previous obstacle has already moved left. -/
theorem spawn_gap_ge_min (g : GameManager) (b : Bool) (d : ℚ)
    (hd1 : OBSTACLE_DISTANCE_MIN ≤ d) (hd2 : d ≤ OBSTACLE_DISTANCE_MAX)
    (prev : Obstacle) (hprev : g.obstacles.getLast? = some prev) :
    ∃ nxt : Obstacle,
      (g.generate_obstacle b d).obstacles.getLast? = some nxt ∧
        OBSTACLE_DISTANCE_MIN ≤ nxt.x - prev.x := by
  unfold GameManager.generate_obstacle
  rw [hprev]
  refine ⟨_, List.getLast?_concat _, ?_⟩
  show OBSTACLE_DISTANCE_MIN ≤ max SCREEN_WIDTH (prev.x + d) - prev.x
  have h := le_max_right SCREEN_WIDTH (prev.x + d)
  linarith

/-- Witness for C1 at a concrete state: one obstacle at the right edge,
drawn distance 300. -/
theorem spawn_gap_ge_min_witness :
    OBSTACLE_DISTANCE_MIN ≤ (300 : ℚ) ∧ (300 : ℚ) ≤ OBSTACLE_DISTANCE_MAX ∧
    sampleOneObstacle.obstacles.getLast? = some (Obstacle.init 5 false) ∧
    ∃ nxt : Obstacle,
      (sampleOneObstacle.generate_obstacle false 300).obstacles.getLast? =
          some nxt ∧
        OBSTACLE_DISTANCE_MIN ≤ nxt.x - (Obstacle.init 5 false).x :=
  ⟨by norm_num [OBSTACLE_DISTANCE_MIN], by norm_num [OBSTACLE_DISTANCE_MIN,
      OBSTACLE_DISTANCE_MAX], rfl,
    spawn_gap_ge_min sampleOneObstacle false 300
      (by norm_num [OBSTACLE_DISTANCE_MIN])
      (by norm_num [OBSTACLE_DISTANCE_MIN, OBSTACLE_DISTANCE_MAX])
      (Obstacle.init 5 false) rfl⟩

/-- C7: on a running tick, the speed increment added equals
`GAME_SPEED_INCREMENT * (1 + score / 500)` evaluated at the tick-entry
score, the score grows by `SCORE_INCREMENT`, and the spawn interval is set
to `max(OBSTACLE_FREQUENCY_MIN, OBSTACLE_FREQUENCY_INITIAL - score * 2)`
at the updated score (the code updates the score first). -/
theorem difficulty_formulas (g : GameManager) (now : ℚ) (b : Bool) (d : ℚ)
    (h1 : g.state.has_started = true) (h2 : g.state.game_over = false) :
    (g.update now b d).state.game_speed - g.state.game_speed =
      GAME_SPEED_INCREMENT * (1 + g.state.score / 500) ∧
    (g.update now b d).state.score = g.state.score + SCORE_INCREMENT ∧
    (g.update now b d).state.obstacle_frequency =
      max OBSTACLE_FREQUENCY_MIN
        (OBSTACLE_FREQUENCY_INITIAL - (g.update now b d).state.score * 2) := by
  obtain ⟨hs, hv, hf, _, _⟩ := update_running_state_fields g now b d h1 h2
  refine ⟨by rw [hv]; ring, hs, ?_⟩
  rw [hf, hs]

/-- Witness for C7 at the freshly started state. -/
theorem difficulty_formulas_witness :
    sampleStart.state.has_started = true ∧
    sampleStart.state.game_over = false ∧
    ((sampleStart.update 0 false 300).state.game_speed -
        sampleStart.state.game_speed =
      GAME_SPEED_INCREMENT * (1 + sampleStart.state.score / 500) ∧
    (sampleStart.update 0 false 300).state.score =
      sampleStart.state.score + SCORE_INCREMENT ∧
    (sampleStart.update 0 false 300).state.obstacle_frequency =
      max OBSTACLE_FREQUENCY_MIN
        (OBSTACLE_FREQUENCY_INITIAL -
          (sampleStart.update 0 false 300).state.score * 2)) :=
  ⟨rfl, rfl, difficulty_formulas sampleStart 0 false 300 rfl rfl⟩

/-- C8: once `game_over` is set, a tick leaves the whole simulation state
— player, obstacles, score, speed, spawn interval, everything — exactly
unchanged, whatever the clock or random inputs are, until a reset. -/
theorem game_over_freezes (g : GameManager) (now : ℚ) (b : Bool) (d : ℚ)
    (h : g.state.game_over = true) : g.update now b d = g :=
  update_game_over_frozen g now b d h

/-- Witness for C8 at a concrete game-over state. -/
theorem game_over_freezes_witness :
    sampleOver.state.game_over = true ∧
    sampleOver.update 0 false 300 = sampleOver :=
  ⟨rfl, game_over_freezes sampleOver 0 false 300 rfl⟩

theorem difficulty_step (g : GameManager) (i : TickInput)
    (hI : DifficultyInv g) :
    DifficultyInv (g.update i.now i.rndAir i.rndDist) ∧
    g.state.game_speed ≤ (g.update i.now i.rndAir i.rndDist).state.game_speed ∧
    (g.update i.now i.rndAir i.rndDist).state.obstacle_frequency ≤
      g.state.obstacle_frequency := by
  obtain ⟨hI1, hI2, hI3⟩ := hI
  cases hs : g.state.has_started with
  | false =>
      rw [update_not_started g _ _ _ hs]
      exact ⟨⟨hI1, hI2, hI3⟩, le_refl _, le_refl _⟩
  | true =>
      cases ho : g.state.game_over with
      | true =>
          rw [update_game_over_frozen g _ _ _ ho]
          exact ⟨⟨hI1, hI2, hI3⟩, le_refl _, le_refl _⟩
      | false =>
          obtain ⟨hsc, hsp, hfq, _, _⟩ :=
            update_running_state_fields g i.now i.rndAir i.rndDist hs ho
          have hSI : SCORE_INCREMENT = (5 : ℚ) / 100 := rfl
          have hGI : GAME_SPEED_INCREMENT = (4 : ℚ) / 1000 := rfl
          have hmono : max OBSTACLE_FREQUENCY_MIN
              (OBSTACLE_FREQUENCY_INITIAL -
                (g.state.score + SCORE_INCREMENT) * 2) ≤
              max OBSTACLE_FREQUENCY_MIN
                (OBSTACLE_FREQUENCY_INITIAL - g.state.score * 2) :=
            max_le_max (le_refl _) (by rw [hSI]; linarith)
          refine ⟨⟨?_, ?_, ?_⟩, ?_, ?_⟩
          · rw [hsc, hSI]
            linarith
          · rw [hfq]
            exact le_max_left _ _
          · rw [hfq, hsc]
          · rw [hsp]
            have hd : (0 : ℚ) ≤ g.state.score / 500 :=
              div_nonneg hI1 (by norm_num)
            have hp : (0 : ℚ) ≤ GAME_SPEED_INCREMENT *
                (1 + g.state.score / 500) := by
              rw [hGI]
              exact mul_nonneg (by norm_num) (by linarith)
            linarith
          · rw [hfq]
            exact le_trans hmono hI3

theorem difficulty_run (l : List TickInput) :
    ∀ g : GameManager, DifficultyInv g →
      DifficultyInv (g.runTicks l) ∧
      g.state.game_speed ≤ (g.runTicks l).state.game_speed ∧
      (g.runTicks l).state.obstacle_frequency ≤
        g.state.obstacle_frequency := by
  induction l with
  | nil => exact fun g hI => ⟨hI, le_refl _, le_refl _⟩
  | cons i is ih =>
      intro g hI
      obtain ⟨hI', h1, h2⟩ := difficulty_step g i hI
      obtain ⟨hI2, h1', h2'⟩ := ih _ hI'
      exact ⟨hI2, le_trans h1 h1', le_trans h2' h2⟩

/-- C6: within one run (started by the reset signal, no further reset),
between any two points of the tick sequence the game speed never
decreases and the spawn interval never increases, and the spawn interval
never drops below its floor `OBSTACLE_FREQUENCY_MIN` — whatever the
control, clock and randomness inputs are, and whether or not the run has
meanwhile ended (frozen ticks keep both values unchanged). -/
theorem difficulty_monotone (g : GameManager) (l1 l2 : List TickInput) :
    (g.resetSignal.runTicks l1).state.game_speed ≤
      ((g.resetSignal.runTicks l1).runTicks l2).state.game_speed ∧
    ((g.resetSignal.runTicks l1).runTicks l2).state.obstacle_frequency ≤
      (g.resetSignal.runTicks l1).state.obstacle_frequency ∧
    OBSTACLE_FREQUENCY_MIN ≤
      ((g.resetSignal.runTicks l1).runTicks l2).state.obstacle_frequency := by
  have h0 : DifficultyInv g.resetSignal := by
    refine ⟨le_refl _, ?_, ?_⟩
    · show OBSTACLE_FREQUENCY_MIN ≤ OBSTACLE_FREQUENCY_INITIAL
      rw [show OBSTACLE_FREQUENCY_MIN = (500 : ℚ) from rfl,
        show OBSTACLE_FREQUENCY_INITIAL = (1000 : ℚ) from rfl]
      norm_num
    · show max OBSTACLE_FREQUENCY_MIN
          (OBSTACLE_FREQUENCY_INITIAL - 0 * 2) ≤ OBSTACLE_FREQUENCY_INITIAL
      rw [show OBSTACLE_FREQUENCY_MIN = (500 : ℚ) from rfl,
        show OBSTACLE_FREQUENCY_INITIAL = (1000 : ℚ) from rfl]
      norm_num
  obtain ⟨hL1, _, _⟩ := difficulty_run l1 g.resetSignal h0
  obtain ⟨hL2, hsp, hfq⟩ := difficulty_run l2 _ hL1
  exact ⟨hsp, hfq, hL2.2.1⟩

theorem obstacle_iterate (o : Obstacle) (k : ℕ) :
    Obstacle.update^[k] o = { o with x := o.x - k * o.speed } := by
  induction k with
  | zero => simp
  | succ n ih =>
      rw [Function.iterate_succ_apply', ih]
      unfold Obstacle.update
      congr 1
      push_cast
      ring

theorem obstacles_after_tick_on_screen (g : GameManager) (now : ℚ) (b : Bool)
    (d : ℚ) (h1 : g.state.has_started = true)
    (h2 : g.state.game_over = false) (o : Obstacle)
    (ho : o ∈ (g.update now b d).obstacles) : o.is_off_screen = false := by
  rcases update_running_obstacles g now b d h1 h2 with h | ⟨o', h, hw, hx⟩
  · rw [h] at ho
    have := (List.mem_filter.mp ho).2
    simpa using this
  · rw [h] at ho
    rcases List.mem_append.mp ho with hm | hs
    · have := (List.mem_filter.mp hm).2
      simpa using this
    · have heq : o = o' := by simpa using hs
      rw [heq]
      unfold Obstacle.is_off_screen
      rw [hw]
      rw [show SCREEN_WIDTH = (800 : ℚ) from rfl] at hx
      rw [show OBSTACLE_WIDTH = (30 : ℚ) from rfl]
      simp only [decide_eq_false_iff_not, not_lt]
      linarith

/-- C3 counterexample: a running state whose ground obstacle sits at
`x = 105`, so after its move at speed 5 it exactly overlaps the player's
box.  The tick does set `game_over`, but — contrary to the claim — it
still increments the score (`check_collisions` is followed by the
score update with no early return on the collision tick). -/
theorem collision_score_counterexample :
    collideSample.state.game_over = false ∧
    collideSample.tickCollision = true ∧
    (collideSample.update 0 false 300).state.game_over = true ∧
    (collideSample.update 0 false 300).state.score ≠
      collideSample.state.score := by
  norm_num [GameManager.update, GameManager.tickCollision,
    GameManager.stepPlayer, GameManager.stepObstacles,
    GameManager.movedObstacles, GameManager.check_collisions,
    GameManager.anyCollision, GameManager.stepSpawn,
    GameManager.generate_obstacle, GameManager.stepDifficulty,
    Player.update, Player.init, Player.get_rect, Obstacle.update,
    Obstacle.init, Obstacle.get_rect, Obstacle.is_off_screen,
    Rect.colliderect, ratTrunc, collideSample, sampleStart,
    GameManager.resetSignal, GameManager.reset_game, GameState.reset,
    SCREEN_WIDTH, GROUND_HEIGHT, AIR_HEIGHT, PLAYER_WIDTH, PLAYER_HEIGHT,
    OBSTACLE_WIDTH, OBSTACLE_HEIGHT, GAME_SPEED_INITIAL,
    GAME_SPEED_INCREMENT, OBSTACLE_FREQUENCY_INITIAL,
    OBSTACLE_FREQUENCY_MIN, SCORE_INCREMENT, TRANSITION_SPEED,
    List.filter, List.any]

/-- C3 (amended): on a running tick, if the player's rect overlaps some
obstacle's rect (both taken after this tick's position updates, as the
code tests them) the phase becomes GAME_OVER that same tick, and if not
the phase stays RUNNING — but in both cases the score is incremented by
the fixed per-tick increment; the freeze only starts on the next tick. -/
theorem collision_tick_amended (g : GameManager) (now : ℚ) (b : Bool)
    (d : ℚ) (h1 : g.state.has_started = true)
    (h2 : g.state.game_over = false) :
    (g.tickCollision = true → (g.update now b d).phase = Phase.GAME_OVER) ∧
    (g.tickCollision = false → (g.update now b d).phase = Phase.RUNNING) ∧
    (g.update now b d).state.score = g.state.score + SCORE_INCREMENT := by
  obtain ⟨hsc, _, _, hgo, hhs⟩ := update_running_state_fields g now b d h1 h2
  refine ⟨?_, ?_, hsc⟩ <;> intro hc <;>
    unfold GameManager.phase <;> rw [hhs, hgo, hc] <;> simp

/-- Witness for the amended C3 at the concrete overlapping state. -/
theorem collision_tick_amended_witness :
    collideSample.state.has_started = true ∧
    collideSample.state.game_over = false ∧
    ((collideSample.tickCollision = true →
        (collideSample.update 0 false 300).phase = Phase.GAME_OVER) ∧
     (collideSample.tickCollision = false →
        (collideSample.update 0 false 300).phase = Phase.RUNNING) ∧
     (collideSample.update 0 false 300).state.score =
        collideSample.state.score + SCORE_INCREMENT) :=
  ⟨rfl, rfl, collision_tick_amended collideSample 0 false 300 rfl rfl⟩

/-- C2 counterexample: with the global game speed at 7, a tick moves the
earlier-spawned obstacle (stored speed 5) from `x = 300` to `x = 295`,
not to `300 - 7`: the advance uses the speed stored in the obstacle at
its creation, not a per-tick caller-supplied speed, so on-field obstacles
do not all move at the current global speed. -/
theorem stored_speed_counterexample :
    storedSpeedSample.state.game_speed = 7 ∧
    (storedSpeedSample.update 0 false 300).obstacles.map (fun o => o.x) =
      [295, 693] ∧
    (295 : ℚ) ≠ 300 - storedSpeedSample.state.game_speed := by
  norm_num [GameManager.update, GameManager.stepPlayer,
    GameManager.stepObstacles, GameManager.movedObstacles,
    GameManager.check_collisions, GameManager.anyCollision,
    GameManager.stepSpawn, GameManager.generate_obstacle,
    GameManager.stepDifficulty, Player.update, Player.init,
    Player.get_rect, Obstacle.update, Obstacle.init, Obstacle.get_rect,
    Obstacle.is_off_screen, Rect.colliderect, ratTrunc, storedSpeedSample,
    sampleStart, GameManager.resetSignal, GameManager.reset_game,
    GameState.reset, SCREEN_WIDTH, GROUND_HEIGHT, AIR_HEIGHT,
    PLAYER_WIDTH, PLAYER_HEIGHT, OBSTACLE_WIDTH, OBSTACLE_HEIGHT,
    GAME_SPEED_INITIAL, GAME_SPEED_INCREMENT, OBSTACLE_FREQUENCY_INITIAL,
    OBSTACLE_FREQUENCY_MIN, SCORE_INCREMENT, TRANSITION_SPEED,
    List.filter, List.any]

/-- C2 (amended): an obstacle's per-tick advance uses the speed stored in
the obstacle at creation (the game speed at its spawn time): construction
records the speed, `update` subtracts exactly that stored speed and keeps
it, and on a running tick every obstacle that stays on-screen survives in
the collection having advanced by its own stored speed. -/
theorem obstacle_speed_stored_amended :
    (∀ (s : ℚ) (b : Bool), (Obstacle.init s b).speed = s) ∧
    (∀ o : Obstacle, o.update.x = o.x - o.speed ∧ o.update.speed = o.speed) ∧
    (∀ (g : GameManager) (now : ℚ) (b : Bool) (d : ℚ) (o : Obstacle),
      g.state.has_started = true → g.state.game_over = false →
      o ∈ g.obstacles → o.update.is_off_screen = false →
      o.update ∈ (g.update now b d).obstacles) :=
  ⟨fun _ _ => rfl, fun _ => ⟨rfl, rfl⟩,
    fun g now b d o h1 h2 ho hon =>
      mem_obstacles_after_tick g now b d o h1 h2 ho hon⟩

/-- Witness for the amended C2: the right-edge ground obstacle survives
the first tick, having moved by its stored speed. -/
theorem obstacle_speed_stored_amended_witness :
    sampleOneObstacle.state.has_started = true ∧
    sampleOneObstacle.state.game_over = false ∧
    Obstacle.init 5 false ∈ sampleOneObstacle.obstacles ∧
    (Obstacle.init 5 false).update.is_off_screen = false ∧
    (Obstacle.init 5 false).update ∈
      (sampleOneObstacle.update 0 false 300).obstacles :=
  ⟨rfl, rfl, List.mem_singleton.mpr rfl,
    by norm_num [Obstacle.update, Obstacle.init, Obstacle.is_off_screen,
      SCREEN_WIDTH, OBSTACLE_WIDTH],
    obstacle_speed_stored_amended.2.2 sampleOneObstacle 0 false 300
      (Obstacle.init 5 false) rfl rfl (List.mem_singleton.mpr rfl)
      (by norm_num [Obstacle.update, Obstacle.init, Obstacle.is_off_screen,
        SCREEN_WIDTH, OBSTACLE_WIDTH])⟩

/-- C9 counterexample: an air obstacle at `x = -25` — the position an
obstacle spawned at `x = 800` with stored speed 5 reaches after 165 moves
— lands exactly on `x = -30` this tick.  There `x ≤ -30` holds, yet
`x + width = 0` is not `< 0`, so the obstacle is NOT removed: the claim's
removal condition `x ≤ -30` is off by one at the boundary. -/
theorem prune_boundary_counterexample :
    (boundarySample.update 0 false 300).obstacles =
      [{ Obstacle.init 5 true with x := -30 }] ∧
    ({ Obstacle.init 5 true with x := -30 } : Obstacle).x ≤ -30 := by
  norm_num [GameManager.update, GameManager.stepPlayer,
    GameManager.stepObstacles, GameManager.movedObstacles,
    GameManager.check_collisions, GameManager.anyCollision,
    GameManager.stepSpawn, GameManager.generate_obstacle,
    GameManager.stepDifficulty, Player.update, Player.init,
    Player.get_rect, Obstacle.update, Obstacle.init, Obstacle.get_rect,
    Obstacle.is_off_screen, Rect.colliderect, ratTrunc, boundarySample,
    sampleStart, GameManager.resetSignal, GameManager.reset_game,
    GameState.reset, SCREEN_WIDTH, GROUND_HEIGHT, AIR_HEIGHT,
    PLAYER_WIDTH, PLAYER_HEIGHT, OBSTACLE_WIDTH, OBSTACLE_HEIGHT,
    GAME_SPEED_INITIAL, GAME_SPEED_INCREMENT, OBSTACLE_FREQUENCY_INITIAL,
    OBSTACLE_FREQUENCY_MIN, SCORE_INCREMENT, TRANSITION_SPEED,
    List.filter, List.any]

/-- C9 (amended): on a running tick an obstacle is removed exactly when
`x + width < 0` first holds after its position update — obstacles still
satisfying `x + width ≥ 0` survive the tick, and every obstacle present
after the tick satisfies `x + width ≥ 0`.  Concretely, an obstacle
created at `x = 800` (width 30) advanced by its stored speed 5 sits at
`x = 800 - 5k` after `k` moves: at move 166 it is exactly at `x = -30`
and still on-screen, and at move 167 it is at `x = -35 < -30` and
off-screen, so that tick removes it. -/
theorem prune_off_screen_amended :
    (∀ (g : GameManager) (now : ℚ) (b : Bool) (d : ℚ),
      g.state.has_started = true → g.state.game_over = false →
      ((∀ o ∈ g.obstacles, o.update.is_off_screen = false →
          o.update ∈ (g.update now b d).obstacles) ∧
       (∀ o ∈ (g.update now b d).obstacles, o.is_off_screen = false))) ∧
    (∀ k : ℕ, (Obstacle.update^[k] (Obstacle.init 5 true)).x =
      800 - 5 * k) ∧
    (Obstacle.update^[166] (Obstacle.init 5 true)).x = -30 ∧
    (Obstacle.update^[166] (Obstacle.init 5 true)).is_off_screen = false ∧
    (Obstacle.update^[167] (Obstacle.init 5 true)).x = -35 ∧
    (Obstacle.update^[167] (Obstacle.init 5 true)).is_off_screen = true := by
  refine ⟨fun g now b d h1 h2 =>
    ⟨fun o ho hon => mem_obstacles_after_tick g now b d o h1 h2 ho hon,
     fun o ho => obstacles_after_tick_on_screen g now b d h1 h2 o ho⟩,
    fun k => ?_, ?_, ?_, ?_, ?_⟩ <;>
    (try rw [obstacle_iterate]) <;>
    norm_num [obstacle_iterate, Obstacle.init, Obstacle.is_off_screen,
      SCREEN_WIDTH, OBSTACLE_WIDTH] <;>
    ring

/-- Witness for the amended C9: the right-edge air obstacle survives the
first tick (it is still on-screen after its move). -/
theorem prune_off_screen_amended_witness :
    sampleOneAir.state.has_started = true ∧
    sampleOneAir.state.game_over = false ∧
    Obstacle.init 5 true ∈ sampleOneAir.obstacles ∧
    (Obstacle.init 5 true).update.is_off_screen = false ∧
    (Obstacle.init 5 true).update ∈
      (sampleOneAir.update 0 false 300).obstacles :=
  ⟨rfl, rfl, List.mem_singleton.mpr rfl,
    by norm_num [Obstacle.update, Obstacle.init, Obstacle.is_off_screen,
      SCREEN_WIDTH, OBSTACLE_WIDTH],
    (prune_off_screen_amended.1 sampleOneAir 0 false 300 rfl rfl).1
      (Obstacle.init 5 true) (List.mem_singleton.mpr rfl)
      (by norm_num [Obstacle.update, Obstacle.init, Obstacle.is_off_screen,
        SCREEN_WIDTH, OBSTACLE_WIDTH])⟩

end GravityRunner
